import Mathlib

/-!
Shallow embedding of the story/character pipeline of the repository
lectura-multijugador, centred on the tools of src/agent_story_orchestrator.py
(the models Historia, Personaje, ContenedorHistoria and the tools
create_historia and create_contenedor_historia) together with the sibling
copy of create_historia in src/agent_tools/agente_creador_historia.py.

Modelling conventions:
- Python dict[str, Any] character mappings become association lists over an
  inductive Value type covering the value shapes the code uses
  (str, int, list[str], None).
- str(uuid.uuid4()) is modelled as an injective supply uuid4 : Nat -> String,
  threaded by an explicit counter: each call consumes the next index.
- datetime.now(timezone.utc).isoformat() is modelled as an injective clock
  nowIso : Nat -> String, threaded by an explicit tick.
- Pydantic construction Model(**kwargs) is modelled as a validator on a
  kwargs dict: the result is ok exactly when every required field is present
  with the declared shape and every optional field is absent, None, or of the
  declared shape; otherwise it is the error "ValidationError".
- In create_contenedor_historia the dicts of the personajes argument are
  mutated in place by the Python code; the embedding therefore returns, next
  to the Except result, the final state of those caller-supplied dicts.
-/

namespace LecturaMultijugador

/-- Python runtime values that appear in the character attribute mappings
(dict[str, Any]) handled by the pipeline: strings, integers, lists of
strings, and None. -/
inductive Value where
  | str (s : String)
  | int (n : Int)
  | strlist (l : List String)
  | null
  deriving DecidableEq, Repr

/-- A Python dict[str, Any] as an association list; the first binding of a
key is its value. -/
def PDict := List (String × Value)

instance : DecidableEq PDict := inferInstanceAs (DecidableEq (List (String × Value)))

instance : Inhabited PDict := ⟨[]⟩

/-- Python d.get(k) / d[k]: the value bound to k, if any. -/
def dlookup : PDict → String → Option Value
  | [], _ => none
  | (k1, v) :: rest, k => if k1 = k then some v else dlookup rest k

/-- Python `k in d`. -/
def dcontains (d : PDict) (k : String) : Bool :=
  (dlookup d k).isSome

/-- Python `d[k] = v`: overwrite the binding of k in place, or append it. -/
def dinsert : PDict → String → Value → PDict
  | [], k, v => [(k, v)]
  | (k1, v1) :: rest, k, v =>
      if k1 = k then (k, v) :: rest else (k1, v1) :: dinsert rest k v

/-- Python `if k not in d: d[k] = v`, the defaulting idiom of
create_contenedor_historia. -/
def fillIfAbsent (d : PDict) (k : String) (v : Value) : PDict :=
  if dcontains d k then d else dinsert d k v

/-- Supply of fresh identifiers: the n-th result of str(uuid.uuid4()).
Distinct calls (distinct counters) yield distinct non-empty tokens. -/
def uuid4 (n : Nat) : String :=
  "uuid-" ++ Nat.repr n

/-- The n-th result of datetime.now(timezone.utc).isoformat(): an ISO-8601
UTC timestamp; the clock is injective in the tick. -/
def nowIso (n : Nat) : String :=
  "2026-10-12T00:00:00.0000" ++ Nat.repr n ++ "+00:00"

/-- The pydantic model Historia of src/models/models.py (the copy in
src/agent_story_orchestrator.py declares the same fields). -/
structure Historia where
  story_id : String
  titulo : String
  descripcion : Option String
  generos : Option (List String)
  dificultad : Option Int
  imagen_portada : Option String
  min_jugadores : Int
  max_jugadores : Int
  autor_id : String
  fecha_creacion : String
  fecha_modificacion : String
  estado : Option String
  deriving DecidableEq, Repr

/-- The pydantic model Personaje. -/
structure Personaje where
  personaje_id : String
  nombre : String
  descripcion : Option String
  story_id : String
  rol : Option String
  habilidades : Option (List String)
  nivel_poder : Option Int
  imagen_perfil : Option String
  edad : Option Int
  origen : Option String
  creador_id : String
  fecha_creacion : String
  fecha_modificacion : String
  estado : Option String
  deriving DecidableEq, Repr

/-- The pydantic model ContenedorHistoria: one Historia plus the list of its
Personaje records (default empty). -/
structure ContenedorHistoria where
  historia : Historia
  personajes : List Personaje
  deriving DecidableEq, Repr

/-- Field check: a required field of type str is present as a string. -/
def reqStr (d : PDict) (k : String) : Bool :=
  match dlookup d k with
  | some (.str _) => true
  | _ => false

/-- Field check: an Optional[str] field with default None is absent, None, or
a string. -/
def optStr (d : PDict) (k : String) : Bool :=
  match dlookup d k with
  | none => true
  | some .null => true
  | some (.str _) => true
  | _ => false

/-- Field check: a required field of type int is present as an integer. -/
def reqInt (d : PDict) (k : String) : Bool :=
  match dlookup d k with
  | some (.int _) => true
  | _ => false

/-- Field check: an Optional[int] field with default None. -/
def optInt (d : PDict) (k : String) : Bool :=
  match dlookup d k with
  | none => true
  | some .null => true
  | some (.int _) => true
  | _ => false

/-- Field check: an Optional[List[str]] field with default None. -/
def optStrList (d : PDict) (k : String) : Bool :=
  match dlookup d k with
  | none => true
  | some .null => true
  | some (.strlist _) => true
  | _ => false

/-- Field check: an Optional[str] field declared with Field(...) — the key is
required but its value may be None. -/
def reqOptStr (d : PDict) (k : String) : Bool :=
  match dlookup d k with
  | some .null => true
  | some (.str _) => true
  | _ => false

/-- Extract a string field (total; meaningful when the check holds). -/
def getStr (d : PDict) (k : String) : String :=
  match dlookup d k with
  | some (.str s) => s
  | _ => ""

/-- Extract an integer field (total; meaningful when the check holds). -/
def getInt (d : PDict) (k : String) : Int :=
  match dlookup d k with
  | some (.int n) => n
  | _ => 0

/-- Extract an optional string field. -/
def getOptStr (d : PDict) (k : String) : Option String :=
  match dlookup d k with
  | some (.str s) => some s
  | _ => none

/-- Extract an optional integer field. -/
def getOptInt (d : PDict) (k : String) : Option Int :=
  match dlookup d k with
  | some (.int n) => some n
  | _ => none

/-- Extract an optional list-of-strings field. -/
def getOptStrList (d : PDict) (k : String) : Option (List String) :=
  match dlookup d k with
  | some (.strlist l) => some l
  | _ => none

/-- Pydantic validation of the kwargs of Historia(**d): every field of the
model, in declaration order, checked against its declared type. -/
def Historia.ok (d : PDict) : Bool :=
  reqStr d "story_id" && reqStr d "titulo" && optStr d "descripcion" &&
  optStrList d "generos" && optInt d "dificultad" && optStr d "imagen_portada" &&
  reqInt d "min_jugadores" && reqInt d "max_jugadores" && reqStr d "autor_id" &&
  reqStr d "fecha_creacion" && reqStr d "fecha_modificacion" && reqOptStr d "estado"

/-- The Historia record assembled from a kwargs dict that passed validation. -/
def Historia.fromDict (d : PDict) : Historia :=
  { story_id := getStr d "story_id"
    titulo := getStr d "titulo"
    descripcion := getOptStr d "descripcion"
    generos := getOptStrList d "generos"
    dificultad := getOptInt d "dificultad"
    imagen_portada := getOptStr d "imagen_portada"
    min_jugadores := getInt d "min_jugadores"
    max_jugadores := getInt d "max_jugadores"
    autor_id := getStr d "autor_id"
    fecha_creacion := getStr d "fecha_creacion"
    fecha_modificacion := getStr d "fecha_modificacion"
    estado := getOptStr d "estado" }

/-- Historia(**d): the record when validation passes, ValidationError
otherwise. -/
def Historia.validate (d : PDict) : Except String Historia :=
  if Historia.ok d then .ok (Historia.fromDict d) else .error "ValidationError"

/-- Pydantic validation of the kwargs of Personaje(**d). -/
def Personaje.ok (d : PDict) : Bool :=
  reqStr d "personaje_id" && reqStr d "nombre" && optStr d "descripcion" &&
  reqStr d "story_id" && optStr d "rol" && optStrList d "habilidades" &&
  optInt d "nivel_poder" && optStr d "imagen_perfil" && optInt d "edad" &&
  optStr d "origen" && reqStr d "creador_id" && reqStr d "fecha_creacion" &&
  reqStr d "fecha_modificacion" && reqOptStr d "estado"

/-- The Personaje record assembled from a kwargs dict that passed validation. -/
def Personaje.fromDict (d : PDict) : Personaje :=
  { personaje_id := getStr d "personaje_id"
    nombre := getStr d "nombre"
    descripcion := getOptStr d "descripcion"
    story_id := getStr d "story_id"
    rol := getOptStr d "rol"
    habilidades := getOptStrList d "habilidades"
    nivel_poder := getOptInt d "nivel_poder"
    imagen_perfil := getOptStr d "imagen_perfil"
    edad := getOptInt d "edad"
    origen := getOptStr d "origen"
    creador_id := getStr d "creador_id"
    fecha_creacion := getStr d "fecha_creacion"
    fecha_modificacion := getStr d "fecha_modificacion"
    estado := getOptStr d "estado" }

/-- Personaje(**d): the record when validation passes, ValidationError
otherwise. -/
def Personaje.validate (d : PDict) : Except String Personaje :=
  if Personaje.ok d then .ok (Personaje.fromDict d) else .error "ValidationError"

/-- The value passed for an Optional[List[str]] argument. -/
def optListVal : Option (List String) → Value
  | none => .null
  | some l => .strlist l

namespace AgentTools

/-- The tool create_historia of src/agent_tools/agente_creador_historia.py:
builds the kwargs of Historia(...) exactly as the source does — story_id and
autor_id from two fresh uuids, both timestamps from two calls of the UTC
clock, estado fixed to "borrador" — and validates them.  c is the uuid
counter, t the clock tick at entry. -/
def create_historia (titulo descripcion : String)
    (min_jugadores max_jugadores : Int) (generos : Option (List String))
    (c t : Nat) : Except String Historia :=
  Historia.validate
    [("story_id", .str (uuid4 c)),
     ("titulo", .str titulo),
     ("descripcion", .str descripcion),
     ("min_jugadores", .int min_jugadores),
     ("max_jugadores", .int max_jugadores),
     ("generos", optListVal generos),
     ("autor_id", .str (uuid4 (c + 1))),
     ("fecha_creacion", .str (nowIso t)),
     ("fecha_modificacion", .str (nowIso (t + 1))),
     ("estado", .str "borrador")]

end AgentTools

namespace Orchestrator

/-- The tool create_historia of src/agent_story_orchestrator.py: its call of
Historia(...) passes only story_id, titulo, descripcion, min_jugadores,
max_jugadores, generos and autor_id — no fecha_creacion, fecha_modificacion
or estado, although all three are required fields of the model. -/
def create_historia (titulo descripcion : String)
    (min_jugadores max_jugadores : Int) (generos : Option (List String))
    (c : Nat) : Except String Historia :=
  Historia.validate
    [("story_id", .str (uuid4 c)),
     ("titulo", .str titulo),
     ("descripcion", .str descripcion),
     ("min_jugadores", .int min_jugadores),
     ("max_jugadores", .int max_jugadores),
     ("generos", optListVal generos),
     ("autor_id", .str (uuid4 (c + 1)))]

/-- The body of the personajes loop of create_contenedor_historia, acting on
one caller-supplied dict personaje_data: story_id is always overwritten with
the id of the historia built in the same call, and creador_id, personaje_id,
fecha_creacion, fecha_modificacion and estado are filled only when absent.
Returns the mutated dict and the uuid counter after the step (a uuid is
consumed only when personaje_id was absent). -/
def completePersonaje (h : Historia) (c : Nat) (d : PDict) : PDict × Nat :=
  let d1 := dinsert d "story_id" (.str h.story_id)
  let d2 := fillIfAbsent d1 "creador_id" (.str h.autor_id)
  let d3 := fillIfAbsent d2 "personaje_id" (.str (uuid4 c))
  let c3 := if dcontains d2 "personaje_id" then c else c + 1
  let d4 := fillIfAbsent d3 "fecha_creacion" (.str h.fecha_creacion)
  let d5 := fillIfAbsent d4 "fecha_modificacion" (.str h.fecha_modificacion)
  let d6 := fillIfAbsent d5 "estado" (.str "activo")
  (d6, c3)

/-- The personajes loop of create_contenedor_historia: each dict is completed
in place and passed to Personaje(**personaje_data); the first ValidationError
aborts the loop.  Returns the Except result, the final state of the
caller-supplied dicts (the completed ones up to and including the failing
dict, then the untouched rest), and the final uuid counter. -/
def buildPersonajes (h : Historia) :
    List PDict → Nat → Except String (List Personaje) × List PDict × Nat
  | [], c => (.ok [], [], c)
  | d :: rest, c =>
      let dc := completePersonaje h c d
      match Personaje.validate dc.1 with
      | .error e => (.error e, dc.1 :: rest, dc.2)
      | .ok p =>
          let r := buildPersonajes h rest dc.2
          (r.1.map (fun l => p :: l), dc.1 :: r.2.1, r.2.2)

/-- Python `x or dflt` on an Optional[str] argument: None and "" are falsy. -/
def pyOrStr : Option String → String → String
  | none, dflt => dflt
  | some s, dflt => if s = "" then dflt else s

/-- Python `x or dflt` on an Optional[int] argument: None and 0 are falsy. -/
def pyOrInt : Option Int → Int → Int
  | none, dflt => dflt
  | some n, dflt => if n = 0 then dflt else n

instance : Repr PDict := inferInstanceAs (Repr (List (String × Value)))

instance decEqExceptStr {α : Type} [DecidableEq α] :
    DecidableEq (Except String α) := fun a b =>
  match a, b with
  | .ok x, .ok y =>
      if h : x = y then .isTrue (by rw [h]) else .isFalse (by simp [h])
  | .error e, .error f =>
      if h : e = f then .isTrue (by rw [h]) else .isFalse (by simp [h])
  | .ok _, .error _ => .isFalse (by simp)
  | .error _, .ok _ => .isFalse (by simp)

/-- Result of create_contenedor_historia: the returned value (or the
ValidationError), together with the final state of the caller-supplied
personaje dicts, which the Python code mutates in place. -/
structure AsmResult where
  result : Except String ContenedorHistoria
  dicts : List PDict
  deriving DecidableEq, Repr

/-- The tool create_contenedor_historia of src/agent_story_orchestrator.py:
defaults titulo, min_jugadores and max_jugadores with Python `or`, builds the
Historia directly (every required kwarg is passed, so its validation cannot
fail), then runs the personajes loop (skipped when the argument is None or
the empty list, leaving the list empty) and wraps everything in a
ContenedorHistoria.  c is the uuid counter, t the clock tick at entry. -/
def create_contenedor_historia (titulo descripcion : Option String)
    (generos : Option (List String)) (dificultad : Option Int)
    (imagen_portada : Option String) (min_jugadores max_jugadores : Option Int)
    (estado : Option String) (personajes : Option (List PDict))
    (c t : Nat) : AsmResult :=
  let titulo := pyOrStr titulo "Historia sin título"
  let minJ := pyOrInt min_jugadores 1
  let maxJ := pyOrInt max_jugadores 4
  let historia : Historia :=
    { story_id := uuid4 c
      titulo := titulo
      descripcion := descripcion
      generos := generos
      dificultad := dificultad
      imagen_portada := imagen_portada
      min_jugadores := minJ
      max_jugadores := maxJ
      autor_id := uuid4 (c + 1)
      fecha_creacion := nowIso t
      fecha_modificacion := nowIso (t + 1)
      estado := estado }
  let r := buildPersonajes historia (personajes.getD []) (c + 2)
  { result := r.1.map (fun l => { historia := historia, personajes := l })
    dicts := r.2.1 }

/-- The Historia that create_contenedor_historia constructs from its story
arguments (definitionally the record built inside the tool). -/
def ccStory (titulo descripcion : Option String) (generos : Option (List String))
    (dificultad : Option Int) (imagen_portada : Option String)
    (min_jugadores max_jugadores : Option Int) (estado : Option String)
    (c t : Nat) : Historia :=
  { story_id := uuid4 c
    titulo := pyOrStr titulo "Historia sin título"
    descripcion := descripcion
    generos := generos
    dificultad := dificultad
    imagen_portada := imagen_portada
    min_jugadores := pyOrInt min_jugadores 1
    max_jugadores := pyOrInt max_jugadores 4
    autor_id := uuid4 (c + 1)
    fecha_creacion := nowIso t
    fecha_modificacion := nowIso (t + 1)
    estado := estado }

end Orchestrator

/-- The container carried by an ok AsmResult (a fixed fallback otherwise). -/
def contOf (r : Orchestrator.AsmResult) : ContenedorHistoria :=
  match r.result with
  | .ok cont => cont
  | .error _ => { historia := { story_id := "", titulo := "", descripcion := none,
                                generos := none, dificultad := none,
                                imagen_portada := none, min_jugadores := 0,
                                max_jugadores := 0, autor_id := "",
                                fecha_creacion := "", fecha_modificacion := "",
                                estado := none }
                  personajes := [] }

/-- A raw character mapping carrying only a name, as in Scenario 2 of the
spec: personajes=[{"nombre":"Aldric"}]. -/
def dAldric : PDict := [("nombre", .str "Aldric")]

/-- A second name-only raw character mapping. -/
def dBerta : PDict := [("nombre", .str "Berta")]

/-- A raw character mapping lacking nombre. -/
def dSinNombre : PDict := [("rol", .str "guerrero")]

/-- A raw character mapping whose nombre is fine but whose edad has the wrong
type: a string instead of an integer. -/
def dMalaEdad : PDict := [("nombre", .str "Viejo"), ("edad", .str "muchos")]

/-- A raw character mapping that already carries a caller-chosen story_id. -/
def dConStoryId : PDict :=
  [("nombre", .str "Aldric"), ("story_id", .str "caller-supplied-id")]

/-- Scenario-2 call of the container-assembly tool: one name-only mapping. -/
def KC3 : Orchestrator.AsmResult :=
  Orchestrator.create_contenedor_historia none none none none none none none none
    (some [dAldric]) 0 0

/-- The single Personaje produced by the Scenario-2 call. -/
def pC3 : Personaje :=
  (contOf KC3).personajes.getD 0 (Personaje.fromDict [])

/-- Container-assembly call with two name-only mappings, in order. -/
def KC6 : Orchestrator.AsmResult :=
  Orchestrator.create_contenedor_historia none none none none none none none none
    (some [dAldric, dBerta]) 0 0

/-- Container-assembly call whose mapping already carries a story_id. -/
def K8 : Orchestrator.AsmResult :=
  Orchestrator.create_contenedor_historia none none none none none none none none
    (some [dConStoryId]) 0 0

/-- Container-assembly call for observing the mutation of the caller dict. -/
def K9 : Orchestrator.AsmResult :=
  Orchestrator.create_contenedor_historia none none none none none none none none
    (some [dAldric]) 0 0

theorem dlookup_dinsert_self (d : PDict) (k : String) (v : Value) :
    dlookup (dinsert d k v) k = some v := by
  induction d with
  | nil => simp [dinsert, dlookup]
  | cons hd tl ih =>
      obtain ⟨k1, v1⟩ := hd
      by_cases h : k1 = k <;> simp [dinsert, dlookup, h, ih]

theorem dlookup_dinsert_ne {k2 k : String} (d : PDict) (v : Value) (h : k2 ≠ k) :
    dlookup (dinsert d k v) k2 = dlookup d k2 := by
  have hk : ¬k = k2 := fun he => h he.symm
  induction d with
  | nil => simp [dinsert, dlookup, hk]
  | cons hd tl ih =>
      obtain ⟨k1, v1⟩ := hd
      by_cases h1 : k1 = k
      · subst h1
        simp [dinsert, dlookup, hk]
      · simp [dinsert, dlookup, h1, ih]

theorem dinsert_of_lookup {d : PDict} {k : String} {v : Value}
    (h : dlookup d k = some v) : dinsert d k v = d := by
  induction d with
  | nil => simp [dlookup] at h
  | cons hd tl ih =>
      obtain ⟨k1, v1⟩ := hd
      by_cases h1 : k1 = k
      · subst h1
        simp [dlookup] at h
        simp [dinsert, h]
      · simp [dlookup, h1] at h
        simp [dinsert, h1, ih h]

theorem dlookup_fillIfAbsent_ne {k2 k : String} (d : PDict) (v : Value)
    (h : k2 ≠ k) : dlookup (fillIfAbsent d k v) k2 = dlookup d k2 := by
  unfold fillIfAbsent
  split
  · rfl
  · exact dlookup_dinsert_ne d v h

theorem fillIfAbsent_of_contains {d : PDict} {k : String} (v : Value)
    (h : dcontains d k = true) : fillIfAbsent d k v = d := by
  simp [fillIfAbsent, h]

theorem dlookup_fillIfAbsent_absent {d : PDict} {k : String} (v : Value)
    (h : dlookup d k = none) : dlookup (fillIfAbsent d k v) k = some v := by
  have hc : dcontains d k = false := by simp [dcontains, h]
  simp [fillIfAbsent, hc, dlookup_dinsert_self]

theorem dlookup_fillIfAbsent_present {d : PDict} {k : String} {w : Value}
    (v : Value) (h : dlookup d k = some w) :
    dlookup (fillIfAbsent d k v) k = some w := by
  have hc : dcontains d k = true := by simp [dcontains, h]
  simp [fillIfAbsent, hc, h]

theorem dcontains_dinsert_self (d : PDict) (k : String) (v : Value) :
    dcontains (dinsert d k v) k = true := by
  simp [dcontains, dlookup_dinsert_self]

theorem dcontains_fillIfAbsent_self (d : PDict) (k : String) (v : Value) :
    dcontains (fillIfAbsent d k v) k = true := by
  unfold fillIfAbsent
  split
  · assumption
  · exact dcontains_dinsert_self d k v

theorem dcontains_fillIfAbsent_of {d : PDict} {k2 k : String} {v : Value}
    (h : dcontains d k2 = true) : dcontains (fillIfAbsent d k v) k2 = true := by
  by_cases he : k2 = k
  · subst he
    exact dcontains_fillIfAbsent_self d k2 v
  · unfold dcontains at h ⊢
    rw [dlookup_fillIfAbsent_ne d v he]
    exact h

theorem dcontains_dinsert_of {d : PDict} {k2 k : String} {v : Value}
    (h : dcontains d k2 = true) : dcontains (dinsert d k v) k2 = true := by
  by_cases he : k2 = k
  · subst he
    exact dcontains_dinsert_self d k2 v
  · unfold dcontains at h ⊢
    rw [dlookup_dinsert_ne d v he]
    exact h

theorem reqStr_lookup {e : PDict} {k : String} (h : reqStr e k = true) :
    dlookup e k = some (.str (getStr e k)) := by
  unfold reqStr at h
  unfold getStr
  cases he : dlookup e k with
  | none => rw [he] at h; simp at h
  | some v => rw [he] at h; cases v <;> simp_all

theorem reqStr_congr {e1 e2 : PDict} {k : String}
    (h : dlookup e1 k = dlookup e2 k) : reqStr e1 k = reqStr e2 k := by
  unfold reqStr
  rw [h]

theorem optStr_congr {e1 e2 : PDict} {k : String}
    (h : dlookup e1 k = dlookup e2 k) : optStr e1 k = optStr e2 k := by
  unfold optStr
  rw [h]

theorem optInt_congr {e1 e2 : PDict} {k : String}
    (h : dlookup e1 k = dlookup e2 k) : optInt e1 k = optInt e2 k := by
  unfold optInt
  rw [h]

theorem optStrList_congr {e1 e2 : PDict} {k : String}
    (h : dlookup e1 k = dlookup e2 k) : optStrList e1 k = optStrList e2 k := by
  unfold optStrList
  rw [h]

theorem reqOptStr_congr {e1 e2 : PDict} {k : String}
    (h : dlookup e1 k = dlookup e2 k) : reqOptStr e1 k = reqOptStr e2 k := by
  unfold reqOptStr
  rw [h]

theorem reqStr_of_str {e : PDict} {k s : String}
    (h : dlookup e k = some (.str s)) : reqStr e k = true := by
  unfold reqStr
  rw [h]

theorem reqOptStr_of_str {e : PDict} {k s : String}
    (h : dlookup e k = some (.str s)) : reqOptStr e k = true := by
  unfold reqOptStr
  rw [h]

theorem validate_ok_eq {e : PDict} {p : Personaje}
    (h : Personaje.validate e = .ok p) : p = Personaje.fromDict e := by
  unfold Personaje.validate at h
  split at h
  · injection h with h
    exact h.symm
  · simp at h

theorem validate_ok_Pok {e : PDict} {p : Personaje}
    (h : Personaje.validate e = .ok p) : Personaje.ok e = true := by
  by_cases hb : Personaje.ok e = true
  · exact hb
  · unfold Personaje.validate at h
    rw [if_neg hb] at h
    simp at h

theorem validate_error_msg {e : PDict} {s : String}
    (h : Personaje.validate e = .error s) : s = "ValidationError" := by
  unfold Personaje.validate at h
  split at h
  · simp at h
  · injection h with h
    exact h.symm

theorem Pok_nombre {e : PDict} (h : Personaje.ok e = true) :
    reqStr e "nombre" = true := by
  simp only [Personaje.ok, Bool.and_eq_true] at h
  tauto

namespace Orchestrator

theorem cp_story_id (h : Historia) (c : Nat) (d : PDict) :
    dlookup (completePersonaje h c d).1 "story_id" = some (.str h.story_id) := by
  simp only [completePersonaje]
  rw [dlookup_fillIfAbsent_ne _ _ (by decide), dlookup_fillIfAbsent_ne _ _ (by decide),
      dlookup_fillIfAbsent_ne _ _ (by decide), dlookup_fillIfAbsent_ne _ _ (by decide),
      dlookup_fillIfAbsent_ne _ _ (by decide), dlookup_dinsert_self]

theorem cp_nombre (h : Historia) (c : Nat) (d : PDict) :
    dlookup (completePersonaje h c d).1 "nombre" = dlookup d "nombre" := by
  simp only [completePersonaje]
  rw [dlookup_fillIfAbsent_ne _ _ (by decide), dlookup_fillIfAbsent_ne _ _ (by decide),
      dlookup_fillIfAbsent_ne _ _ (by decide), dlookup_fillIfAbsent_ne _ _ (by decide),
      dlookup_fillIfAbsent_ne _ _ (by decide), dlookup_dinsert_ne _ _ (by decide)]

theorem cp_creador_absent (h : Historia) (c : Nat) {d : PDict}
    (hd : dlookup d "creador_id" = none) :
    dlookup (completePersonaje h c d).1 "creador_id" = some (.str h.autor_id) := by
  simp only [completePersonaje]
  rw [dlookup_fillIfAbsent_ne _ _ (by decide), dlookup_fillIfAbsent_ne _ _ (by decide),
      dlookup_fillIfAbsent_ne _ _ (by decide), dlookup_fillIfAbsent_ne _ _ (by decide)]
  apply dlookup_fillIfAbsent_absent
  rw [dlookup_dinsert_ne _ _ (by decide)]
  exact hd

theorem cp_personaje_absent (h : Historia) (c : Nat) {d : PDict}
    (hd : dlookup d "personaje_id" = none) :
    dlookup (completePersonaje h c d).1 "personaje_id" = some (.str (uuid4 c)) := by
  simp only [completePersonaje]
  rw [dlookup_fillIfAbsent_ne _ _ (by decide), dlookup_fillIfAbsent_ne _ _ (by decide),
      dlookup_fillIfAbsent_ne _ _ (by decide)]
  apply dlookup_fillIfAbsent_absent
  rw [dlookup_fillIfAbsent_ne _ _ (by decide), dlookup_dinsert_ne _ _ (by decide)]
  exact hd

theorem cp_fecha_creacion_absent (h : Historia) (c : Nat) {d : PDict}
    (hd : dlookup d "fecha_creacion" = none) :
    dlookup (completePersonaje h c d).1 "fecha_creacion" = some (.str h.fecha_creacion) := by
  simp only [completePersonaje]
  rw [dlookup_fillIfAbsent_ne _ _ (by decide), dlookup_fillIfAbsent_ne _ _ (by decide)]
  apply dlookup_fillIfAbsent_absent
  rw [dlookup_fillIfAbsent_ne _ _ (by decide), dlookup_fillIfAbsent_ne _ _ (by decide),
      dlookup_dinsert_ne _ _ (by decide)]
  exact hd

theorem cp_fecha_modificacion_absent (h : Historia) (c : Nat) {d : PDict}
    (hd : dlookup d "fecha_modificacion" = none) :
    dlookup (completePersonaje h c d).1 "fecha_modificacion" =
      some (.str h.fecha_modificacion) := by
  simp only [completePersonaje]
  rw [dlookup_fillIfAbsent_ne _ _ (by decide)]
  apply dlookup_fillIfAbsent_absent
  rw [dlookup_fillIfAbsent_ne _ _ (by decide), dlookup_fillIfAbsent_ne _ _ (by decide),
      dlookup_fillIfAbsent_ne _ _ (by decide), dlookup_dinsert_ne _ _ (by decide)]
  exact hd

theorem cp_estado_absent (h : Historia) (c : Nat) {d : PDict}
    (hd : dlookup d "estado" = none) :
    dlookup (completePersonaje h c d).1 "estado" = some (.str "activo") := by
  simp only [completePersonaje]
  apply dlookup_fillIfAbsent_absent
  rw [dlookup_fillIfAbsent_ne _ _ (by decide), dlookup_fillIfAbsent_ne _ _ (by decide),
      dlookup_fillIfAbsent_ne _ _ (by decide), dlookup_fillIfAbsent_ne _ _ (by decide),
      dlookup_dinsert_ne _ _ (by decide)]
  exact hd

theorem cp_preserves (h : Historia) (c : Nat) (d : PDict) (k : String)
    (h1 : k ≠ "story_id") (h2 : k ≠ "creador_id") (h3 : k ≠ "personaje_id")
    (h4 : k ≠ "fecha_creacion") (h5 : k ≠ "fecha_modificacion")
    (h6 : k ≠ "estado") :
    dlookup (completePersonaje h c d).1 k = dlookup d k := by
  simp only [completePersonaje]
  rw [dlookup_fillIfAbsent_ne _ _ h6, dlookup_fillIfAbsent_ne _ _ h5,
      dlookup_fillIfAbsent_ne _ _ h4, dlookup_fillIfAbsent_ne _ _ h3,
      dlookup_fillIfAbsent_ne _ _ h2, dlookup_dinsert_ne _ _ h1]

theorem cp_creador_present (h : Historia) (c : Nat) {d : PDict} {w : Value}
    (hd : dlookup d "creador_id" = some w) :
    dlookup (completePersonaje h c d).1 "creador_id" = some w := by
  simp only [completePersonaje]
  rw [dlookup_fillIfAbsent_ne _ _ (by decide), dlookup_fillIfAbsent_ne _ _ (by decide),
      dlookup_fillIfAbsent_ne _ _ (by decide), dlookup_fillIfAbsent_ne _ _ (by decide)]
  apply dlookup_fillIfAbsent_present
  rw [dlookup_dinsert_ne _ _ (by decide)]
  exact hd

theorem cp_personaje_present (h : Historia) (c : Nat) {d : PDict} {w : Value}
    (hd : dlookup d "personaje_id" = some w) :
    dlookup (completePersonaje h c d).1 "personaje_id" = some w := by
  simp only [completePersonaje]
  rw [dlookup_fillIfAbsent_ne _ _ (by decide), dlookup_fillIfAbsent_ne _ _ (by decide),
      dlookup_fillIfAbsent_ne _ _ (by decide)]
  apply dlookup_fillIfAbsent_present
  rw [dlookup_fillIfAbsent_ne _ _ (by decide), dlookup_dinsert_ne _ _ (by decide)]
  exact hd

theorem cp_fecha_creacion_present (h : Historia) (c : Nat) {d : PDict} {w : Value}
    (hd : dlookup d "fecha_creacion" = some w) :
    dlookup (completePersonaje h c d).1 "fecha_creacion" = some w := by
  simp only [completePersonaje]
  rw [dlookup_fillIfAbsent_ne _ _ (by decide), dlookup_fillIfAbsent_ne _ _ (by decide)]
  apply dlookup_fillIfAbsent_present
  rw [dlookup_fillIfAbsent_ne _ _ (by decide), dlookup_fillIfAbsent_ne _ _ (by decide),
      dlookup_dinsert_ne _ _ (by decide)]
  exact hd

theorem cp_fecha_modificacion_present (h : Historia) (c : Nat) {d : PDict} {w : Value}
    (hd : dlookup d "fecha_modificacion" = some w) :
    dlookup (completePersonaje h c d).1 "fecha_modificacion" = some w := by
  simp only [completePersonaje]
  rw [dlookup_fillIfAbsent_ne _ _ (by decide)]
  apply dlookup_fillIfAbsent_present
  rw [dlookup_fillIfAbsent_ne _ _ (by decide), dlookup_fillIfAbsent_ne _ _ (by decide),
      dlookup_fillIfAbsent_ne _ _ (by decide), dlookup_dinsert_ne _ _ (by decide)]
  exact hd

theorem cp_estado_present (h : Historia) (c : Nat) {d : PDict} {w : Value}
    (hd : dlookup d "estado" = some w) :
    dlookup (completePersonaje h c d).1 "estado" = some w := by
  simp only [completePersonaje]
  apply dlookup_fillIfAbsent_present
  rw [dlookup_fillIfAbsent_ne _ _ (by decide), dlookup_fillIfAbsent_ne _ _ (by decide),
      dlookup_fillIfAbsent_ne _ _ (by decide), dlookup_fillIfAbsent_ne _ _ (by decide),
      dlookup_dinsert_ne _ _ (by decide)]
  exact hd

theorem cp_contains_story_id (h : Historia) (c : Nat) (d : PDict) :
    dcontains (completePersonaje h c d).1 "story_id" = true := by
  simp [dcontains, cp_story_id]

theorem cp_contains_creador (h : Historia) (c : Nat) (d : PDict) :
    dcontains (completePersonaje h c d).1 "creador_id" = true := by
  simp only [completePersonaje]
  apply dcontains_fillIfAbsent_of
  apply dcontains_fillIfAbsent_of
  apply dcontains_fillIfAbsent_of
  apply dcontains_fillIfAbsent_of
  exact dcontains_fillIfAbsent_self _ _ _

theorem cp_contains_personaje (h : Historia) (c : Nat) (d : PDict) :
    dcontains (completePersonaje h c d).1 "personaje_id" = true := by
  simp only [completePersonaje]
  apply dcontains_fillIfAbsent_of
  apply dcontains_fillIfAbsent_of
  apply dcontains_fillIfAbsent_of
  exact dcontains_fillIfAbsent_self _ _ _

theorem cp_contains_fecha_creacion (h : Historia) (c : Nat) (d : PDict) :
    dcontains (completePersonaje h c d).1 "fecha_creacion" = true := by
  simp only [completePersonaje]
  apply dcontains_fillIfAbsent_of
  apply dcontains_fillIfAbsent_of
  exact dcontains_fillIfAbsent_self _ _ _

theorem cp_contains_fecha_modificacion (h : Historia) (c : Nat) (d : PDict) :
    dcontains (completePersonaje h c d).1 "fecha_modificacion" = true := by
  simp only [completePersonaje]
  apply dcontains_fillIfAbsent_of
  exact dcontains_fillIfAbsent_self _ _ _

theorem cp_contains_estado (h : Historia) (c : Nat) (d : PDict) :
    dcontains (completePersonaje h c d).1 "estado" = true := by
  simp only [completePersonaje]
  exact dcontains_fillIfAbsent_self _ _ _

theorem cp_of_complete (h : Historia) (c2 : Nat) (e : PDict)
    (hs : dlookup e "story_id" = some (.str h.story_id))
    (h1 : dcontains e "creador_id" = true)
    (h2 : dcontains e "personaje_id" = true)
    (h3 : dcontains e "fecha_creacion" = true)
    (h4 : dcontains e "fecha_modificacion" = true)
    (h5 : dcontains e "estado" = true) :
    completePersonaje h c2 e = (e, c2) := by
  simp only [completePersonaje]
  rw [dinsert_of_lookup hs, fillIfAbsent_of_contains _ h1,
      fillIfAbsent_of_contains _ h2, fillIfAbsent_of_contains _ h3,
      fillIfAbsent_of_contains _ h4, fillIfAbsent_of_contains _ h5, if_pos h2]

theorem cp_idem (h : Historia) (c c2 : Nat) (d : PDict) :
    completePersonaje h c2 (completePersonaje h c d).1 =
      ((completePersonaje h c d).1, c2) :=
  cp_of_complete h c2 _ (cp_story_id h c d) (cp_contains_creador h c d)
    (cp_contains_personaje h c d) (cp_contains_fecha_creacion h c d)
    (cp_contains_fecha_modificacion h c d) (cp_contains_estado h c d)

theorem bp_nil (h : Historia) (c : Nat) :
    buildPersonajes h [] c = (.ok [], [], c) := rfl

theorem bp_cons (h : Historia) (d : PDict) (rest : List PDict) (c : Nat) :
    buildPersonajes h (d :: rest) c =
      (match Personaje.validate (completePersonaje h c d).1 with
       | .error e =>
           (.error e, (completePersonaje h c d).1 :: rest, (completePersonaje h c d).2)
       | .ok p =>
           ((buildPersonajes h rest (completePersonaje h c d).2).1.map (fun l => p :: l),
            (completePersonaje h c d).1 ::
              (buildPersonajes h rest (completePersonaje h c d).2).2.1,
            (buildPersonajes h rest (completePersonaje h c d).2).2.2)) := rfl

theorem bp_cons_error (h : Historia) {d : PDict} (rest : List PDict) {c : Nat}
    {e : String} (hv : Personaje.validate (completePersonaje h c d).1 = .error e) :
    buildPersonajes h (d :: rest) c =
      (.error e, (completePersonaje h c d).1 :: rest, (completePersonaje h c d).2) := by
  rw [bp_cons, hv]

theorem bp_cons_ok (h : Historia) {d : PDict} (rest : List PDict) {c : Nat}
    {p : Personaje} (hv : Personaje.validate (completePersonaje h c d).1 = .ok p) :
    buildPersonajes h (d :: rest) c =
      ((buildPersonajes h rest (completePersonaje h c d).2).1.map (fun l => p :: l),
       (completePersonaje h c d).1 ::
         (buildPersonajes h rest (completePersonaje h c d).2).2.1,
       (buildPersonajes h rest (completePersonaje h c d).2).2.2) := by
  rw [bp_cons, hv]

theorem bp_story_id (h : Historia) (ps : List PDict) (c : Nat) (l : List Personaje)
    (hok : (buildPersonajes h ps c).1 = .ok l) :
    ∀ p ∈ l, p.story_id = h.story_id := by
  induction ps generalizing c l with
  | nil =>
      rw [bp_nil] at hok
      injection hok with hok
      subst hok
      intro p hp
      cases hp
  | cons d rest ih =>
      cases hv : Personaje.validate (completePersonaje h c d).1 with
      | error e =>
          rw [bp_cons_error h rest hv] at hok
          simp at hok
      | ok p =>
          rw [bp_cons_ok h rest hv] at hok
          cases hr : (buildPersonajes h rest (completePersonaje h c d).2).1 with
          | error e => rw [hr] at hok; simp [Except.map] at hok
          | ok l2 =>
              rw [hr] at hok
              simp only [Except.map] at hok
              injection hok with hok
              subst hok
              intro q hq
              rcases List.mem_cons.mp hq with rfl | hq2
              · have hpe := validate_ok_eq hv
                have hsid := cp_story_id h c d
                rw [hpe]
                simp [Personaje.fromDict, getStr, hsid]
              · exact ih _ _ hr q hq2

theorem bp_names (h : Historia) (ps : List PDict) (c : Nat) (l : List Personaje)
    (hok : (buildPersonajes h ps c).1 = .ok l) :
    l.map (fun p => some (Value.str p.nombre)) =
      ps.map (fun d => dlookup d "nombre") := by
  induction ps generalizing c l with
  | nil =>
      rw [bp_nil] at hok
      injection hok with hok
      subst hok
      simp
  | cons d rest ih =>
      cases hv : Personaje.validate (completePersonaje h c d).1 with
      | error e =>
          rw [bp_cons_error h rest hv] at hok
          simp at hok
      | ok p =>
          rw [bp_cons_ok h rest hv] at hok
          cases hr : (buildPersonajes h rest (completePersonaje h c d).2).1 with
          | error e => rw [hr] at hok; simp [Except.map] at hok
          | ok l2 =>
              rw [hr] at hok
              simp only [Except.map] at hok
              injection hok with hok
              subst hok
              simp only [List.map, List.cons.injEq]
              constructor
              · have hpe := validate_ok_eq hv
                have hreq := Pok_nombre (validate_ok_Pok hv)
                have hlk := reqStr_lookup hreq
                rw [cp_nombre h c d] at hlk
                rw [hpe, hlk]
                simp [Personaje.fromDict]
              · exact ih _ _ hr

theorem cp_ok_indep (h h2 : Historia) (c c2 : Nat) (d : PDict) :
    Personaje.ok (completePersonaje h c d).1 =
      Personaje.ok (completePersonaje h2 c2 d).1 := by
  have epres : ∀ (k : String), k ≠ "story_id" → k ≠ "creador_id" →
      k ≠ "personaje_id" → k ≠ "fecha_creacion" → k ≠ "fecha_modificacion" →
      k ≠ "estado" →
      dlookup (completePersonaje h c d).1 k =
        dlookup (completePersonaje h2 c2 d).1 k := by
    intro k k1 k2 k3 k4 k5 k6
    rw [cp_preserves h c d k k1 k2 k3 k4 k5 k6,
        cp_preserves h2 c2 d k k1 k2 k3 k4 k5 k6]
  have qsid : reqStr (completePersonaje h c d).1 "story_id" =
      reqStr (completePersonaje h2 c2 d).1 "story_id" := by
    rw [reqStr_of_str (cp_story_id h c d), reqStr_of_str (cp_story_id h2 c2 d)]
  have qcrea : reqStr (completePersonaje h c d).1 "creador_id" =
      reqStr (completePersonaje h2 c2 d).1 "creador_id" := by
    cases hw : dlookup d "creador_id" with
    | none =>
        rw [reqStr_of_str (cp_creador_absent h c hw),
            reqStr_of_str (cp_creador_absent h2 c2 hw)]
    | some w =>
        exact reqStr_congr ((cp_creador_present h c hw).trans
          (cp_creador_present h2 c2 hw).symm)
  have qpid : reqStr (completePersonaje h c d).1 "personaje_id" =
      reqStr (completePersonaje h2 c2 d).1 "personaje_id" := by
    cases hw : dlookup d "personaje_id" with
    | none =>
        rw [reqStr_of_str (cp_personaje_absent h c hw),
            reqStr_of_str (cp_personaje_absent h2 c2 hw)]
    | some w =>
        exact reqStr_congr ((cp_personaje_present h c hw).trans
          (cp_personaje_present h2 c2 hw).symm)
  have qfc : reqStr (completePersonaje h c d).1 "fecha_creacion" =
      reqStr (completePersonaje h2 c2 d).1 "fecha_creacion" := by
    cases hw : dlookup d "fecha_creacion" with
    | none =>
        rw [reqStr_of_str (cp_fecha_creacion_absent h c hw),
            reqStr_of_str (cp_fecha_creacion_absent h2 c2 hw)]
    | some w =>
        exact reqStr_congr ((cp_fecha_creacion_present h c hw).trans
          (cp_fecha_creacion_present h2 c2 hw).symm)
  have qfm : reqStr (completePersonaje h c d).1 "fecha_modificacion" =
      reqStr (completePersonaje h2 c2 d).1 "fecha_modificacion" := by
    cases hw : dlookup d "fecha_modificacion" with
    | none =>
        rw [reqStr_of_str (cp_fecha_modificacion_absent h c hw),
            reqStr_of_str (cp_fecha_modificacion_absent h2 c2 hw)]
    | some w =>
        exact reqStr_congr ((cp_fecha_modificacion_present h c hw).trans
          (cp_fecha_modificacion_present h2 c2 hw).symm)
  have qest : reqOptStr (completePersonaje h c d).1 "estado" =
      reqOptStr (completePersonaje h2 c2 d).1 "estado" := by
    cases hw : dlookup d "estado" with
    | none =>
        rw [reqOptStr_of_str (cp_estado_absent h c hw),
            reqOptStr_of_str (cp_estado_absent h2 c2 hw)]
    | some w =>
        exact reqOptStr_congr ((cp_estado_present h c hw).trans
          (cp_estado_present h2 c2 hw).symm)
  unfold Personaje.ok
  rw [qsid, qcrea, qpid, qfc, qfm, qest,
      reqStr_congr (epres "nombre" (by decide) (by decide) (by decide) (by decide)
        (by decide) (by decide)),
      optStr_congr (epres "descripcion" (by decide) (by decide) (by decide) (by decide)
        (by decide) (by decide)),
      optStr_congr (epres "rol" (by decide) (by decide) (by decide) (by decide)
        (by decide) (by decide)),
      optStrList_congr (epres "habilidades" (by decide) (by decide) (by decide)
        (by decide) (by decide) (by decide)),
      optInt_congr (epres "nivel_poder" (by decide) (by decide) (by decide) (by decide)
        (by decide) (by decide)),
      optStr_congr (epres "imagen_perfil" (by decide) (by decide) (by decide)
        (by decide) (by decide) (by decide)),
      optInt_congr (epres "edad" (by decide) (by decide) (by decide) (by decide)
        (by decide) (by decide)),
      optStr_congr (epres "origen" (by decide) (by decide) (by decide) (by decide)
        (by decide) (by decide))]

theorem cp_ok_false_of_no_nombre {d : PDict} (hn : reqStr d "nombre" = false)
    (h : Historia) (c : Nat) :
    Personaje.ok (completePersonaje h c d).1 = false := by
  have hne : reqStr (completePersonaje h c d).1 "nombre" = false := by
    rw [reqStr_congr (cp_nombre h c d)]
    exact hn
  simp [Personaje.ok, hne]

theorem cp_ok_false_of_bad_edad {d : PDict} (hn : optInt d "edad" = false)
    (h : Historia) (c : Nat) :
    Personaje.ok (completePersonaje h c d).1 = false := by
  have hne : optInt (completePersonaje h c d).1 "edad" = false := by
    rw [optInt_congr (cp_preserves h c d "edad" (by decide) (by decide) (by decide)
      (by decide) (by decide) (by decide))]
    exact hn
  simp [Personaje.ok, hne]

theorem bp_error_of_invalid (h : Historia) (ps : List PDict) (c : Nat)
    (d : PDict) (hd : d ∈ ps)
    (hbad : ∀ (h2 : Historia) (c2 : Nat),
        Personaje.ok (completePersonaje h2 c2 d).1 = false) :
    (buildPersonajes h ps c).1 = .error "ValidationError" := by
  induction ps generalizing c with
  | nil => cases hd
  | cons d0 rest ih =>
      rcases List.mem_cons.mp hd with rfl | hmem
      · have hval : Personaje.validate (completePersonaje h c d).1 =
            .error "ValidationError" := by
          simp [Personaje.validate, hbad h c]
        rw [bp_cons_error h rest hval]
      · cases hv : Personaje.validate (completePersonaje h c d0).1 with
        | error e =>
            have he := validate_error_msg hv
            subst he
            rw [bp_cons_error h rest hv]
        | ok p =>
            rw [bp_cons_ok h rest hv]
            have hrec := ih (completePersonaje h c d0).2 hmem
            simp [hrec, Except.map]

theorem bp_dicts (h : Historia) (ps : List PDict) (c : Nat) (l : List Personaje)
    (hok : (buildPersonajes h ps c).1 = .ok l) :
    ∀ e ∈ (buildPersonajes h ps c).2.1,
      dcontains e "story_id" = true ∧ dcontains e "creador_id" = true ∧
      dcontains e "personaje_id" = true ∧ dcontains e "fecha_creacion" = true ∧
      dcontains e "fecha_modificacion" = true ∧ dcontains e "estado" = true := by
  induction ps generalizing c l with
  | nil =>
      intro e he
      rw [bp_nil] at he
      cases he
  | cons d rest ih =>
      cases hv : Personaje.validate (completePersonaje h c d).1 with
      | error e0 =>
          rw [bp_cons_error h rest hv] at hok
          simp at hok
      | ok p =>
          rw [bp_cons_ok h rest hv] at hok ⊢
          cases hr : (buildPersonajes h rest (completePersonaje h c d).2).1 with
          | error e0 => rw [hr] at hok; simp [Except.map] at hok
          | ok l2 =>
              rw [hr] at hok
              simp only [Except.map] at hok
              injection hok with hok
              intro e he
              simp only [List.mem_cons] at he
              rcases he with rfl | he2
              · exact ⟨cp_contains_story_id h c d, cp_contains_creador h c d,
                  cp_contains_personaje h c d, cp_contains_fecha_creacion h c d,
                  cp_contains_fecha_modificacion h c d, cp_contains_estado h c d⟩
              · exact ih _ _ hr e he2

theorem cc_result (titulo descripcion : Option String) (generos : Option (List String))
    (dificultad : Option Int) (imagen_portada : Option String)
    (minJ maxJ : Option Int) (estado : Option String)
    (personajes : Option (List PDict)) (c t : Nat) :
    (create_contenedor_historia titulo descripcion generos dificultad imagen_portada
        minJ maxJ estado personajes c t).result =
      (buildPersonajes
          (ccStory titulo descripcion generos dificultad imagen_portada minJ maxJ estado c t)
          (personajes.getD []) (c + 2)).1.map
        (fun l =>
          { historia :=
              ccStory titulo descripcion generos dificultad imagen_portada minJ maxJ estado c t
            personajes := l }) := rfl

theorem cc_dicts (titulo descripcion : Option String) (generos : Option (List String))
    (dificultad : Option Int) (imagen_portada : Option String)
    (minJ maxJ : Option Int) (estado : Option String)
    (personajes : Option (List PDict)) (c t : Nat) :
    (create_contenedor_historia titulo descripcion generos dificultad imagen_portada
        minJ maxJ estado personajes c t).dicts =
      (buildPersonajes
          (ccStory titulo descripcion generos dificultad imagen_portada minJ maxJ estado c t)
          (personajes.getD []) (c + 2)).2.1 := rfl

end Orchestrator

/-- C1: the story-builder claim fails on the orchestrator module's own copy of
create_historia: at a valid input (title "El bosque", description
"Una aventura", min 1 <= max 2) that copy yields ValidationError, because its
Historia(...) call omits the required fields fecha_creacion,
fecha_modificacion and estado; the agent_tools copy of the same tool returns
the completed Historia the claim describes — fresh distinct ids, both
timestamps from the UTC clock, estado fixed to "borrador", and title/min/max
echoing the inputs. -/
theorem C1_create_historia_orchestrator_copy_always_fails :
    Orchestrator.create_historia "El bosque" "Una aventura" 1 2 none 0 =
      .error "ValidationError" ∧
    AgentTools.create_historia "El bosque" "Una aventura" 1 2 none 0 0 =
      .ok { story_id := uuid4 0, titulo := "El bosque",
            descripcion := some "Una aventura", generos := none,
            dificultad := none, imagen_portada := none, min_jugadores := 1,
            max_jugadores := 2, autor_id := uuid4 1,
            fecha_creacion := nowIso 0, fecha_modificacion := nowIso 1,
            estado := some "borrador" } := by
  constructor <;> rfl

/-- C2: on a character mapping that lacks creador_id, personaje_id,
fecha_creacion, fecha_modificacion or estado, the assembly step fills the
missing field with, respectively, the story author id, a fresh uuid, the
story's own two timestamps, and "activo"; and the step is idempotent —
re-running it on an already-completed mapping returns that mapping unchanged,
whatever uuid counter the second run starts from. -/
theorem C2_defaulting_fills_missing_fields_and_is_idempotent :
    (∀ (h : Historia) (c : Nat) (d : PDict), dlookup d "creador_id" = none →
        dlookup (Orchestrator.completePersonaje h c d).1 "creador_id" =
          some (.str h.autor_id)) ∧
    (∀ (h : Historia) (c : Nat) (d : PDict), dlookup d "personaje_id" = none →
        dlookup (Orchestrator.completePersonaje h c d).1 "personaje_id" =
          some (.str (uuid4 c))) ∧
    (∀ (h : Historia) (c : Nat) (d : PDict), dlookup d "fecha_creacion" = none →
        dlookup (Orchestrator.completePersonaje h c d).1 "fecha_creacion" =
          some (.str h.fecha_creacion)) ∧
    (∀ (h : Historia) (c : Nat) (d : PDict), dlookup d "fecha_modificacion" = none →
        dlookup (Orchestrator.completePersonaje h c d).1 "fecha_modificacion" =
          some (.str h.fecha_modificacion)) ∧
    (∀ (h : Historia) (c : Nat) (d : PDict), dlookup d "estado" = none →
        dlookup (Orchestrator.completePersonaje h c d).1 "estado" =
          some (.str "activo")) ∧
    (∀ (h : Historia) (c c2 : Nat) (d : PDict),
        Orchestrator.completePersonaje h c2 (Orchestrator.completePersonaje h c d).1 =
          ((Orchestrator.completePersonaje h c d).1, c2)) :=
  ⟨fun h c _ hd => Orchestrator.cp_creador_absent h c hd,
   fun h c _ hd => Orchestrator.cp_personaje_absent h c hd,
   fun h c _ hd => Orchestrator.cp_fecha_creacion_absent h c hd,
   fun h c _ hd => Orchestrator.cp_fecha_modificacion_absent h c hd,
   fun h c _ hd => Orchestrator.cp_estado_absent h c hd,
   Orchestrator.cp_idem⟩

/-- C4: calling the container-assembly tool with titulo, min_jugadores and
max_jugadores all absent yields a Story titled "Historia sin título" with
min 1 and max 4, every other optional attribute null, and an empty character
list. -/
theorem C4_absent_story_arguments_get_defaults :
    (Orchestrator.create_contenedor_historia none none none none none none none none
        none 0 0).result =
      .ok { historia := { story_id := uuid4 0, titulo := "Historia sin título",
                          descripcion := none, generos := none, dificultad := none,
                          imagen_portada := none, min_jugadores := 1,
                          max_jugadores := 4, autor_id := uuid4 1,
                          fecha_creacion := nowIso 0, fecha_modificacion := nowIso 1,
                          estado := none },
            personajes := [] } := rfl

/-- C7: with the personajes argument absent (None) or the empty list, the
container-assembly tool succeeds and the returned container's personajes is
exactly the empty list. -/
theorem C7_no_personajes_means_empty_list (titulo descripcion : Option String)
    (generos : Option (List String)) (dificultad : Option Int)
    (imagen_portada : Option String) (minJ maxJ : Option Int)
    (estado : Option String) (c t : Nat) :
    (Orchestrator.create_contenedor_historia titulo descripcion generos dificultad
        imagen_portada minJ maxJ estado none c t).result.map
      ContenedorHistoria.personajes = .ok [] ∧
    (Orchestrator.create_contenedor_historia titulo descripcion generos dificultad
        imagen_portada minJ maxJ estado (some []) c t).result.map
      ContenedorHistoria.personajes = .ok [] := by
  constructor <;> rfl

/-- C8: the assembly step writes the new story's identifier into every
character mapping unconditionally, so each resulting Character carries the
freshly generated story id; a caller-supplied story_id value
("caller-supplied-id" in the concrete run) is discarded and never appears in
the output. -/
theorem C8_story_id_overwritten_unconditionally :
    (∀ (h : Historia) (c : Nat) (d : PDict),
        dlookup (Orchestrator.completePersonaje h c d).1 "story_id" =
          some (.str h.story_id)) ∧
    dlookup dConStoryId "story_id" = some (.str "caller-supplied-id") ∧
    (contOf K8).personajes.map Personaje.story_id = [uuid4 0] ∧
    ((contOf K8).personajes.map Personaje.story_id).contains "caller-supplied-id"
      = false := by
  refine ⟨Orchestrator.cp_story_id, ?_, ?_, ?_⟩ <;> rfl

/-- C10: the story-attribute defaulting of the container-assembly tool uses
Python or, so it replaces every falsy value, not only absent ones: an empty
titulo becomes "Historia sin título" and min/max player counts equal to 0
become 1 and 4. -/
theorem C10_falsy_story_arguments_also_defaulted :
    (Orchestrator.create_contenedor_historia (some "") none none none none (some 0)
        (some 0) none none 0 0).result =
      .ok { historia := { story_id := uuid4 0, titulo := "Historia sin título",
                          descripcion := none, generos := none, dificultad := none,
                          imagen_portada := none, min_jugadores := 1,
                          max_jugadores := 4, autor_id := uuid4 1,
                          fecha_creacion := nowIso 0, fecha_modificacion := nowIso 1,
                          estado := none },
            personajes := [] } := rfl

/-- C3: every Character in a successfully assembled StoryContainer carries
the identifier of the contained Story: the assembly step stamps the fresh
story id onto every character mapping. -/
theorem C3_every_character_carries_container_story_id
    (titulo descripcion : Option String) (generos : Option (List String))
    (dificultad : Option Int) (imagen_portada : Option String)
    (minJ maxJ : Option Int) (estado : Option String)
    (personajes : Option (List PDict)) (c t : Nat) (cont : ContenedorHistoria)
    (hres : (Orchestrator.create_contenedor_historia titulo descripcion generos
        dificultad imagen_portada minJ maxJ estado personajes c t).result = .ok cont)
    (p : Personaje) (hp : p ∈ cont.personajes) :
    p.story_id = cont.historia.story_id := by
  rw [Orchestrator.cc_result] at hres
  cases hr : (Orchestrator.buildPersonajes
      (Orchestrator.ccStory titulo descripcion generos dificultad imagen_portada
        minJ maxJ estado c t) (personajes.getD []) (c + 2)).1 with
  | error e => rw [hr] at hres; simp [Except.map] at hres
  | ok l =>
      rw [hr] at hres
      simp only [Except.map] at hres
      injection hres with hres
      subst hres
      exact Orchestrator.bp_story_id _ _ _ _ hr p hp

/-- Witness for C3 at the Scenario-2 input personajes=[{"nombre":"Aldric"}]:
the produced character carries the container's story id. -/
theorem C3_witness : pC3.story_id = (contOf KC3).historia.story_id :=
  C3_every_character_carries_container_story_id none none none none none none none
    none (some [dAldric]) 0 0 (contOf KC3) rfl pC3 (by decide)

/-- C5: a raw character mapping that, after the defaulting step, still fails
Personaje's field constraints — it lacks a nombre, or any other field has the
wrong shape — makes the whole container-assembly call fail with
ValidationError; the offending character is never silently dropped.  The
validation outcome after defaulting depends only on the mapping itself, since
every injected value is a string (cp_ok_indep), so the hypothesis quantifies
over the run's story and uuid counter without loss. -/
theorem C5_failing_mapping_aborts_with_validation_error
    (titulo descripcion : Option String) (generos : Option (List String))
    (dificultad : Option Int) (imagen_portada : Option String)
    (minJ maxJ : Option Int) (estado : Option String) (ps : List PDict)
    (c t : Nat) (d : PDict) (hd : d ∈ ps)
    (hbad : ∀ (h : Historia) (c2 : Nat),
        Personaje.ok (Orchestrator.completePersonaje h c2 d).1 = false) :
    (Orchestrator.create_contenedor_historia titulo descripcion generos dificultad
        imagen_portada minJ maxJ estado (some ps) c t).result =
      .error "ValidationError" := by
  rw [Orchestrator.cc_result]
  have hb := Orchestrator.bp_error_of_invalid
      (Orchestrator.ccStory titulo descripcion generos dificultad imagen_portada
        minJ maxJ estado c t) ps (c + 2) d hd hbad
  simp only [Option.getD_some]
  rw [hb]
  rfl

/-- Witness for C5 at two concrete inputs: a mapping lacking nombre, and a
mapping whose nombre is fine but whose edad is a string — each makes its call
fail with ValidationError. -/
theorem C5_witness :
    (Orchestrator.create_contenedor_historia none none none none none none none none
        (some [dSinNombre]) 0 0).result = .error "ValidationError" ∧
    (Orchestrator.create_contenedor_historia none none none none none none none none
        (some [dMalaEdad]) 0 0).result = .error "ValidationError" :=
  ⟨C5_failing_mapping_aborts_with_validation_error none none none none none none
      none none [dSinNombre] 0 0 dSinNombre (by decide)
      (Orchestrator.cp_ok_false_of_no_nombre (by decide)),
   C5_failing_mapping_aborts_with_validation_error none none none none none none
      none none [dMalaEdad] 0 0 dMalaEdad (by decide)
      (Orchestrator.cp_ok_false_of_bad_edad (by decide))⟩

/-- C6: on success the character list of the returned container has exactly
the length of the input list and, position by position, the name of the
output Character is the name stored in the corresponding input mapping — the
order is preserved. -/
theorem C6_output_order_matches_input (titulo descripcion : Option String)
    (generos : Option (List String)) (dificultad : Option Int)
    (imagen_portada : Option String) (minJ maxJ : Option Int)
    (estado : Option String) (ps : List PDict) (c t : Nat)
    (cont : ContenedorHistoria)
    (hres : (Orchestrator.create_contenedor_historia titulo descripcion generos
        dificultad imagen_portada minJ maxJ estado (some ps) c t).result = .ok cont) :
    cont.personajes.length = ps.length ∧
    cont.personajes.map (fun p => some (Value.str p.nombre)) =
      ps.map (fun d => dlookup d "nombre") := by
  rw [Orchestrator.cc_result] at hres
  simp only [Option.getD_some] at hres
  cases hr : (Orchestrator.buildPersonajes
      (Orchestrator.ccStory titulo descripcion generos dificultad imagen_portada
        minJ maxJ estado c t) ps (c + 2)).1 with
  | error e => rw [hr] at hres; simp [Except.map] at hres
  | ok l =>
      rw [hr] at hres
      simp only [Except.map] at hres
      injection hres with hres
      subst hres
      have hmap := Orchestrator.bp_names _ _ _ _ hr
      refine ⟨?_, hmap⟩
      have hlen := congrArg List.length hmap
      simpa using hlen

/-- Witness for C6 with the two-element input [{"nombre":"Aldric"},
{"nombre":"Berta"}]: two characters come back, named in the same order. -/
theorem C6_witness :
    (contOf KC6).personajes.length = 2 ∧
    (contOf KC6).personajes.map (fun p => some (Value.str p.nombre)) =
      [some (.str "Aldric"), some (.str "Berta")] := by
  have h := C6_output_order_matches_input none none none none none none none none
    [dAldric, dBerta] 0 0 (contOf KC6) rfl
  exact ⟨h.1, by rw [h.2]; rfl⟩

/-- C9: the assembly mutates the caller-supplied mappings in place — after a
successful call every one of the caller's dicts contains the injected keys
story_id, creador_id, personaje_id, fecha_creacion, fecha_modificacion and
estado; concretely, the input mapping [("nombre", "Aldric")] had no
personaje_id before the call and carries one after it. -/
theorem C9_caller_mappings_mutated_in_place :
    (∀ (titulo descripcion : Option String) (generos : Option (List String))
        (dificultad : Option Int) (imagen_portada : Option String)
        (minJ maxJ : Option Int) (estado : Option String)
        (ps : List PDict) (c t : Nat) (cont : ContenedorHistoria),
        (Orchestrator.create_contenedor_historia titulo descripcion generos dificultad
            imagen_portada minJ maxJ estado (some ps) c t).result = .ok cont →
        ∀ e ∈ (Orchestrator.create_contenedor_historia titulo descripcion generos
            dificultad imagen_portada minJ maxJ estado (some ps) c t).dicts,
          dcontains e "story_id" = true ∧ dcontains e "creador_id" = true ∧
          dcontains e "personaje_id" = true ∧ dcontains e "fecha_creacion" = true ∧
          dcontains e "fecha_modificacion" = true ∧ dcontains e "estado" = true) ∧
    dcontains dAldric "personaje_id" = false ∧
    K9.dicts.map (fun e => dcontains e "personaje_id") = [true] := by
  refine ⟨?_, rfl, rfl⟩
  intro titulo descripcion generos dificultad imagen_portada minJ maxJ estado ps c t
    cont hres e he
  rw [Orchestrator.cc_result] at hres
  rw [Orchestrator.cc_dicts] at he
  simp only [Option.getD_some] at hres he
  cases hr : (Orchestrator.buildPersonajes
      (Orchestrator.ccStory titulo descripcion generos dificultad imagen_portada
        minJ maxJ estado c t) ps (c + 2)).1 with
  | error e0 => rw [hr] at hres; simp [Except.map] at hres
  | ok l => exact Orchestrator.bp_dicts _ _ _ _ hr e he

end LecturaMultijugador
